import Mathlib

/-!
Shallow embedding of the batch scoring engine (src/main of the repository):
`pipeline_builder.py`, `data_loader.py`, `scorer.py` and
`run_score_pipeline.py`, together with theorems settling the frozen claims.

Python exceptions are modelled by `Except PyExc`; an exception value records
its Python class (enough to decide which `except` clauses catch it) and its
message. External effects (module import, constructor calls, disk reads,
the parquet codec) are modelled by explicit environments whose fields say
which module exists, which module exports which symbol, whether a
constructor call succeeds, and what transform/predict return.
-/

/-- The Python exception classes the embedded code can raise or catch.
`valueError` also stands for its subclass `json.JSONDecodeError`. -/
inductive PyExc where
  | valueError (msg : String)
  | runtimeError (msg : String)
  | typeError (msg : String)
  | attributeError (msg : String)
  | moduleNotFoundError (msg : String)
deriving Repr, DecidableEq

/-- Python `str(e)` of an exception: its message. -/
def PyExc.msg : PyExc → String
  | .valueError m => m
  | .runtimeError m => m
  | .typeError m => m
  | .attributeError m => m
  | .moduleNotFoundError m => m

/-- Does `except ValueError` catch this exception? -/
def PyExc.isValueError : PyExc → Bool
  | .valueError _ => true
  | _ => false

/-! ## Pipeline builder (`pipeline_builder.py`)

A step's parameter mapping is a JSON-primitive keyword-argument list; its
values are irrelevant to the builder's control flow, so they are kept as
plain strings. A pipeline configuration is the ordered mapping
`step name → {class name → params}` (Python dicts preserve insertion
order, so ordered association lists). -/

/-- Keyword arguments passed to a transformer constructor. -/
abbrev Params := List (String × String)

/-- The pipeline configuration: `{step_name: {class_name: params}}`. -/
abbrev PipelineConfig := List (String × List (String × Params))

/-- An instantiated transformer, identified by its class name and the
parameters it was constructed with. -/
structure Transformer where
  className : String
  params : Params
deriving Repr, DecidableEq

/-- The environment `_instantiate_step` runs in: the configured candidate
module list (`SKLEARN_MODULES`, read with a default, so the
`UndefinedValueError` branch of `_instantiate_step` is unreachable), which
module names import successfully, which module exposes which class symbol,
and whether `cls(**params)` succeeds. A failing constructor call raises
`TypeError` (wrong arity/type), which is not one of the two exception
classes the module loop catches. -/
structure BuildEnv where
  modules : List String
  moduleOk : String → Bool
  exports : String → String → Bool
  instOk : String → Params → Bool

/-- The inner `for module_name in sklearn_modules` loop of
`_instantiate_step`: try each candidate module in order;
`ModuleNotFoundError` (module missing) and `AttributeError` (symbol
missing) are caught and the loop continues; a successful lookup calls
`cls(**params)`, whose failure (`TypeError`) escapes the loop. `ok none`
means the loop finished with no module resolving the class. -/
def tryModules (env : BuildEnv) (className : String) (params : Params) :
    List String → Except PyExc (Option Transformer)
  | [] => .ok none
  | m :: rest =>
    if env.moduleOk m then
      if env.exports m className then
        if env.instOk className params then
          .ok (some ⟨className, params⟩)
        else
          .error (.typeError s!"invalid constructor parameters for {className}")
      else
        tryModules env className params rest
    else
      tryModules env className params rest

/-- Body of the second `try` of `PipelineBuilder._instantiate_step`: iterate
over the `(class_name, params)` items of the step's mapping; the first item
either returns `(step_name, instance)` from inside the module loop or
raises `ValueError("Unsupported or missing step: ...")`; an empty mapping
falls through and returns Python `None`. -/
def instantiateStepBody (env : BuildEnv) (stepName : String) :
    List (String × Params) → Except PyExc (Option (String × Transformer))
  | [] => .ok none
  | (className, params) :: _ =>
    match tryModules env className params env.modules with
    | .ok (some t) => .ok (some (stepName, t))
    | .ok none => .error (.valueError s!"Unsupported or missing step: {className}")
    | .error e => .error e

/-- Embeds `PipelineBuilder._instantiate_step`: the body wrapped by
`except Exception as e: raise RuntimeError(f"Error while trying to
instantiate pipeline step: {e}")`. -/
def instantiateStep (env : BuildEnv) (stepName : String)
    (stepParams : List (String × Params)) : Except PyExc (Option (String × Transformer)) :=
  match instantiateStepBody env stepName stepParams with
  | .ok r => .ok r
  | .error e => .error (.runtimeError ("Error while trying to instantiate pipeline step: " ++ e.msg))

/-- The `for step_name, step_params in self.pipeline_config.items()` loop of
`_instantiate_pipeline`: each step is instantiated inside
`try ... except ValueError`, so only a `ValueError` is downgraded to a
skip-with-warning; any other exception escapes the loop. -/
def instantiatePipelineLoop (env : BuildEnv) :
    PipelineConfig → Except PyExc (List (Option (String × Transformer)))
  | [] => .ok []
  | (stepName, stepParams) :: rest =>
    match instantiateStep env stepName stepParams with
    | .ok step =>
      match instantiatePipelineLoop env rest with
      | .ok steps => .ok (step :: steps)
      | .error e => .error e
    | .error e =>
      if e.isValueError then
        instantiatePipelineLoop env rest
      else
        .error e

/-- Body of the `try` of `_instantiate_pipeline`: the falsy-config guard
(`if not self.pipeline_config` — true for `None` and for an empty dict)
followed by the step loop. `build` always assigns the config first, so the
`None` case cannot occur; the empty-mapping case can. -/
def instantiatePipelineBody (env : BuildEnv) (cfg : PipelineConfig) :
    Except PyExc (List (Option (String × Transformer))) :=
  if cfg.isEmpty then
    .error (.valueError "Pipeline configuration not loaded. Call load_pipeline() first.")
  else
    instantiatePipelineLoop env cfg

/-- Embeds `PipelineBuilder._instantiate_pipeline`: body wrapped by
`except Exception as e: raise RuntimeError(f"Error while trying to
instantiate pipeline: {e}")`. The successful result is the
`Pipeline(steps_instances)` step list. -/
def instantiatePipeline (env : BuildEnv) (cfg : PipelineConfig) :
    Except PyExc (List (Option (String × Transformer))) :=
  match instantiatePipelineBody env cfg with
  | .ok steps => .ok steps
  | .error e => .error (.runtimeError ("Error while trying to instantiate pipeline: " ++ e.msg))

/-- Embeds `PipelineBuilder.build`: stores the config, runs
`_instantiate_pipeline`, and re-wraps any exception as `RuntimeError(e)`
(whose `str` is the wrapped exception's message). -/
def build (env : BuildEnv) (cfg : PipelineConfig) :
    Except PyExc (List (Option (String × Transformer))) :=
  match instantiatePipeline env cfg with
  | .ok steps => .ok steps
  | .error e => .error (.runtimeError e.msg)

/-- The default `SKLEARN_MODULES` value of `_instantiate_step`. -/
def defaultModules : List String :=
  ["sklearn.preprocessing", "sklearn.feature_selection",
   "sklearn.decomposition", "sklearn.ensemble"]

/-- The default module environment, tabulating only the symbols the claims
mention: `sklearn.preprocessing` exposes `StandardScaler`;
`FooBarTransformer` (the spec's unresolvable-class scenario) exists in no
candidate module; constructor calls with an empty parameter list succeed. -/
def sklearnEnv : BuildEnv where
  modules := defaultModules
  moduleOk := fun m => defaultModules.contains m
  exports := fun m c => m == "sklearn.preprocessing" && c == "StandardScaler"
  instOk := fun _ p => (p : List _).isEmpty

/-! ## Streaming reader and batch generator (`data_loader.py`, `scorer.py`)

A row of the columnar input is an association list `column name → value`,
with `none` standing for a missing value (NaN). The parquet reader
`iter_batches(batch_size=batch_size)` is modelled as exact
`batch_size`-row slicing of the row list (the last slice may be shorter);
`df.dropna(inplace=True)` filters each slice. -/

/-- A row of the input file: column name to value, `none` = missing. -/
abbrev Row := List (String × Option Int)

/-- Does the row contain a missing value (dropped by `dropna`)? -/
def rowHasNull (r : Row) : Bool :=
  r.any fun kv => kv.2.isNone

/-- Fuel-driven slicing of a list into pieces of `n` elements (the last
piece may be shorter). -/
def chunksFuel {α : Type} : Nat → Nat → List α → List (List α)
  | 0, _, _ => []
  | _, _, [] => []
  | fuel + 1, n, l => l.take n :: chunksFuel fuel n (l.drop n)

/-- Slice a list into `n`-element pieces; `l.length + 1` fuel always
suffices. -/
def chunks {α : Type} (n : Nat) (l : List α) : List (List α) :=
  if n = 0 then [] else chunksFuel (l.length + 1) n l

/-- Embeds `DataLoader.stream_data`: read the parquet file in `batch_size`-row
batches and yield each one with its missing-value rows dropped (a batch
that becomes empty is still yielded, as an empty frame). I/O errors are
out of scope of the claims; the file's row list is the input. -/
def stream_data (batchSize : Nat) (rows : List Row) : List (List Row) :=
  (chunks batchSize rows).map fun chunk => chunk.filter fun r => !(rowHasNull r)

/-- Embeds `record[features]`: column selection of the feature columns from one
row; the row count of a frame is unchanged by column selection. -/
def projRow (features : List String) (r : Row) : Row :=
  features.filterMap fun f => (r.find? fun kv => kv.1 == f).map fun kv => (f, kv.2)

/-- The loop of `Scorer._batch_generator`: `batch` accumulates the frames
yielded by `stream_data` (one list entry per *frame*, not per row);
`record[features]` is appended; when `len(batch) >= batch_size` the first
`batch_size` frames are concatenated and yielded; a final non-empty
accumulator is concatenated and yielded after the loop. -/
def batchGenLoop (batchSize : Nat) (features : List String)
    (acc : List (List Row)) : List (List Row) → List (List Row)
  | [] => if acc.isEmpty then [] else [acc.flatten]
  | c :: rest =>
    let acc' := acc ++ [c.map (projRow features)]
    if batchSize ≤ acc'.length then
      (acc'.take batchSize).flatten :: batchGenLoop batchSize features (acc'.drop batchSize) rest
    else
      batchGenLoop batchSize features acc' rest

/-- Embeds `Scorer._batch_generator`: the loop above run over the frames of
`stream_data(data_path, batch_size)` with an empty accumulator. -/
def batch_generator (batchSize : Nat) (features : List String) (rows : List Row) :
    List (List Row) :=
  batchGenLoop batchSize features [] (stream_data batchSize rows)

/-- The three feature columns hard-coded in `Scorer.score`. -/
def scoreFeatures : List String := ["vibration_x", "vibration_y", "vibration_z"]

/-- Number of input rows that survive the missing-value drop: the total
row count yielded by `stream_data`. -/
def survivingRowCount (batchSize : Nat) (rows : List Row) : Nat :=
  ((stream_data batchSize rows).map List.length).sum

/-! ## Per-batch worker and the scoring drain (`scorer.py`) -/

/-- The run-time environment of a worker: what `pipeline.fit_transform`
returns (or raises), whether the loaded model has a `predict` attribute,
and what `model.predict` returns (or raises). -/
structure ScoreEnv where
  transform : List Row → Except PyExc (List Row)
  hasPredict : Bool
  predict : List Row → Except PyExc (List Int)

/-- Body of the `try` of `Scorer._process_batch`: `fit_transform` the
batch, raise `RuntimeError` if the model has no `predict` method, else
`predict` the transformed batch. -/
def processBatchBody (env : ScoreEnv) (batch : List Row) : Except PyExc (List Int) :=
  match env.transform batch with
  | .error e => .error e
  | .ok transformed =>
    if env.hasPredict then
      env.predict transformed
    else
      .error (.runtimeError "Loaded model does not have a predict method.")

/-- Embeds `Scorer._process_batch`: the body wrapped by `except Exception`,
which logs the failure and returns Python `None`. -/
def process_batch (env : ScoreEnv) (batch : List Row) : Option (List Int) :=
  match processBatchBody env batch with
  | .ok predictions => some predictions
  | .error _ => none

/-- The drain loop of `Scorer.score`: each completed future's result is
written to the parquet writer when it `is not None`; a `None` (failed
batch) contributes nothing. Completion order is a permutation of this
list; the claims only concern its contents/row counts, which are
permutation-independent, so submission order is used. -/
def writtenFrom (env : ScoreEnv) (batches : List (List Row)) : List (List Int) :=
  batches.filterMap (process_batch env)

/-- The prediction lists written for a run over `rows`. -/
def writtenPredictions (env : ScoreEnv) (batchSize : Nat) (features : List String)
    (rows : List Row) : List (List Int) :=
  writtenFrom env (batch_generator batchSize features rows)

/-- Total number of prediction rows written to the output file. -/
def outputRowCount (env : ScoreEnv) (batchSize : Nat) (features : List String)
    (rows : List Row) : Nat :=
  ((writtenPredictions env batchSize features rows).map List.length).sum

/-- The scoring section of `Scorer.score` (after config, model and
pipeline loaded successfully): submit every generated batch to
`_process_batch`, drain completions, write non-`None` results, return the
written predictions. Worker exceptions are already converted to `None`
inside `_process_batch`, and the drain wraps `future.result()` in its own
`except Exception`; writer/executor I/O faults are out of scope, so this
section itself raises nothing. -/
def scoreScoringPhase (env : ScoreEnv) (batchSize : Nat) (features : List String)
    (rows : List Row) : Except PyExc (List (List Int)) :=
  .ok (writtenPredictions env batchSize features rows)

/-! ## JSONC configuration loading (`data_loader.py`)

The configuration file is a list of text lines. `json.loads` is Python's
strict JSON parser; it is modelled by a fuel-driven recursive-descent
parser producing a `Json` value. The model keeps a number as its raw
lexeme (no floating point is needed by any claim), maps the single-
character string escapes, and accepts slightly more liberal number
lexemes than Python; no claim depends on those corners. What the claims
do depend on — that `//` is not part of JSON syntax, so a line with an
inline trailing comment fails the parse — the model shares with Python:
no parsing rule consumes a `/`. -/

/-- The JSON values `json.loads` can produce. -/
inductive Json where
  | null
  | bool (b : Bool)
  | num (raw : String)
  | str (s : String)
  | arr (elems : List Json)
  | obj (kvs : List (String × Json))

/-- Python `dict` insertion for object members: a duplicate key keeps its
original position and takes the later value, a new key is appended. -/
def objInsert (kvs : List (String × Json)) (k : String) (v : Json) :
    List (String × Json) :=
  if kvs.any fun kv => kv.1 == k then
    kvs.map fun kv => if kv.1 == k then (k, v) else kv
  else
    kvs ++ [(k, v)]

/-- Python `dict.get(k)` / `dict.get(k, default)` on an object's members. -/
def objLookup (kvs : List (String × Json)) (k : String) : Option Json :=
  (kvs.find? fun kv => kv.1 == k).map fun kv => kv.2

/-- JSON insignificant whitespace. -/
def isJsonWs (c : Char) : Bool :=
  c == ' ' || c == '\t' || c == '\n' || c == '\r'

/-- Drop leading insignificant whitespace. -/
def skipWs (cs : List Char) : List Char :=
  cs.dropWhile isJsonWs

/-- Resolve a single-character string escape. -/
def unescapeChar (c : Char) : Char :=
  if c == 'n' then '\n'
  else if c == 't' then '\t'
  else if c == 'r' then '\r'
  else if c == 'b' then (Char.ofNat 8)
  else if c == 'f' then (Char.ofNat 12)
  else c

/-- Parse the rest of a string literal (the opening quote already
consumed): the contents up to the closing quote and the remainder. -/
def parseStringRest : Nat → List Char → Option (String × List Char)
  | 0, _ => none
  | _ + 1, [] => none
  | fuel + 1, c :: rest =>
    if c == '"' then
      some ("", rest)
    else if c == '\\' then
      match rest with
      | [] => none
      | e :: rest' =>
        (parseStringRest fuel rest').map fun sr =>
          (String.mk (unescapeChar e :: sr.1.data), sr.2)
    else
      (parseStringRest fuel rest).map fun sr => (String.mk (c :: sr.1.data), sr.2)

/-- Characters a number lexeme is made of. -/
def isNumChar (c : Char) : Bool :=
  c.isDigit || c == '-' || c == '+' || c == '.' || c == 'e' || c == 'E'

/-- Parse a number lexeme starting at the current position. -/
def parseNumberLexeme (cs : List Char) : Option (String × List Char) :=
  let lexeme := cs.takeWhile isNumChar
  if lexeme.isEmpty then none else some (String.mk lexeme, cs.drop lexeme.length)

mutual

/-- Parse one JSON value, returning it and the unconsumed remainder. -/
def parseValue : Nat → List Char → Option (Json × List Char)
  | 0, _ => none
  | fuel + 1, cs =>
    match skipWs cs with
    | [] => none
    | c :: rest =>
      if c == '"' then
        (parseStringRest (fuel + 1) rest).map fun sr => (Json.str sr.1, sr.2)
      else if c == '\x7b' then
        match skipWs rest with
        | '\x7d' :: rest' => some (Json.obj [], rest')
        | _ => parseMembers fuel (skipWs rest) []
      else if c == '[' then
        match skipWs rest with
        | ']' :: rest' => some (Json.arr [], rest')
        | _ => parseItems fuel (skipWs rest) []
      else
        match c :: rest with
        | 't' :: 'r' :: 'u' :: 'e' :: rest' => some (Json.bool true, rest')
        | 'f' :: 'a' :: 'l' :: 's' :: 'e' :: rest' => some (Json.bool false, rest')
        | 'n' :: 'u' :: 'l' :: 'l' :: rest' => some (Json.null, rest')
        | cs' => (parseNumberLexeme cs').map fun nr => (Json.num nr.1, nr.2)

/-- Parse the members of an object (after `{` and leading whitespace),
accumulating into `acc`, up to and including the closing `}`. -/
def parseMembers (fuel : Nat) (cs : List Char) (acc : List (String × Json)) :
    Option (Json × List Char) :=
  match fuel with
  | 0 => none
  | fuel + 1 =>
    match skipWs cs with
    | '"' :: rest =>
      match parseStringRest (fuel + 1) rest with
      | none => none
      | some (key, afterKey) =>
        match skipWs afterKey with
        | ':' :: afterColon =>
          match parseValue fuel afterColon with
          | none => none
          | some (v, afterVal) =>
            match skipWs afterVal with
            | ',' :: next => parseMembers fuel next (objInsert acc key v)
            | '\x7d' :: next => some (Json.obj (objInsert acc key v), next)
            | _ => none
        | _ => none
    | _ => none

/-- Parse the items of an array (after `[` and leading whitespace),
accumulating into `acc`, up to and including the closing `]`. -/
def parseItems (fuel : Nat) (cs : List Char) (acc : List Json) :
    Option (Json × List Char) :=
  match fuel with
  | 0 => none
  | fuel + 1 =>
    match parseValue fuel cs with
    | none => none
    | some (v, afterVal) =>
      match skipWs afterVal with
      | ',' :: next => parseItems fuel next (acc ++ [v])
      | ']' :: next => some (Json.arr (acc ++ [v]), next)
      | _ => none

end

/-- Embeds `json.loads`: parse one value and require only whitespace to
remain; `none` models the raised `json.JSONDecodeError`. -/
def json_loads (s : String) : Option Json :=
  match parseValue (s.length + 1) s.data with
  | some (v, rest) => if (skipWs rest).isEmpty then some v else none
  | none => none

/-- The whitespace characters Python `str.strip()` removes (the ASCII
ones; the configuration files at hand contain no exotic unicode blanks). -/
def isPySpace (c : Char) : Bool :=
  c == ' ' || c == '\t' || c == '\n' || c == '\r' || c == '\x0b' || c == '\x0c'

/-- Python `line.strip()`: remove leading and trailing whitespace. -/
def pyStrip (s : String) : String :=
  String.mk (((s.data.dropWhile isPySpace).reverse.dropWhile isPySpace).reverse)

/-- Python `s.startswith(pre)`. -/
def pyStartsWith (s pre : String) : Bool :=
  pre.data.isPrefixOf s.data

/-- The line filter of `DataLoader.load_pipeline_file`: keep exactly the
lines whose leading/trailing-whitespace-stripped text does not start with
`//` (Python `if not line.strip().startswith("//")`). -/
def stripCommentLines (lines : List String) : List String :=
  lines.filter fun l => !(pyStartsWith (pyStrip l) "//")

/-- Python `pipeline_spec.get("steps", {})`: requires the parsed document
to be a dict (anything else has no `.get` and raises `AttributeError`). -/
def stepsConfigOf : Json → Except PyExc Json
  | Json.obj kvs => .ok ((objLookup kvs "steps").getD (Json.obj []))
  | _ => .error (.attributeError "the parsed document has no attribute get")

/-- Body of the `try` of `DataLoader.load_pipeline_file`: filter the
comment lines, join the rest with newlines, `json.loads` the result, and
take the `steps` sub-mapping. -/
def loadPipelineBody (lines : List String) : Except PyExc Json :=
  match json_loads (String.intercalate "\n" (stripCommentLines lines)) with
  | none => .error (.valueError "Expecting value")
  | some spec => stepsConfigOf spec

/-- Embeds `DataLoader.load_pipeline_file`: the body wrapped by
`except Exception as e: raise RuntimeError(f"Error building pipeline from
{filepath}: {e}")` (the file path is not modelled; the file's lines are
the input). -/
def load_pipeline_file (lines : List String) : Except PyExc Json :=
  match loadPipelineBody lines with
  | .ok steps => .ok steps
  | .error e => .error (.runtimeError ("Error building pipeline from file: " ++ e.msg))

/-- Python `pipeline_configs.pop("model", None)` in `Scorer.score`: on a
dict, remove the `model` entry (if any) and return its value, else `None`;
anything non-dict has no `.pop` and raises `AttributeError`. Returns the
popped value and the remaining configuration. -/
def popModel : Json → Except PyExc (Option Json × Json)
  | Json.obj kvs =>
    .ok (objLookup kvs "model", Json.obj (kvs.filter fun kv => !(kv.1 == "model")))
  | _ => .error (.attributeError "the steps configuration has no attribute pop")

/-- The configuration phase of `Scorer.score` starting from the parsed
document: take the `steps` sub-mapping (`load_pipeline_file`) and pop the
`model` key from it. -/
def scorePreludeOfSpec (spec : Json) : Except PyExc (Option Json × Json) :=
  match stepsConfigOf spec with
  | .error e => .error e
  | .ok steps => popModel steps

/-- The configuration phase of `Scorer.score` from the config file's
lines: `load_pipeline_file` followed by `pipeline_configs.pop("model",
None)`. The result is `(model_filepath, pipeline_configs)` as passed on to
`DataLoader.load_model` and `PipelineBuilder.build`. -/
def scorePrelude (lines : List String) : Except PyExc (Option Json × Json) :=
  match load_pipeline_file lines with
  | .error e => .error e
  | .ok steps => popModel steps

/-! ## Process parameter resolution (`run_score_pipeline.py`) -/

/-- The `.env` file values `decouple.config` can return; `none` stands for
an undefined key (`config` then raises `UndefinedValueError`). `BATCH_SIZE`
and `MAX_WORKERS` are modelled already converted by `int(...)`. -/
structure EnvFile where
  dataPath : Option String
  pipelinePath : Option String
  batchSize : Option Nat
  maxWorkers : Option Nat

/-- Embeds the parameter-resolution prologue of `main` in
`run_score_pipeline.py`: only when some path argument is missing are the
environment values consulted, and then both paths are (re)assigned from
the environment; batch size and worker count are (re)assigned from the
environment only in that branch and only when at least one of the two is
missing. An undefined environment key raises `UndefinedValueError`, which
`main` converts to a fatal `ValueError`. The result is the
`(data_path, pipeline_path, batch_size, max_workers)` the scorer is run
with. -/
def resolveParams (envf : EnvFile) (dataPath pipelinePath : Option String)
    (batchSize maxWorkers : Option Nat) :
    Except PyExc (Option String × Option String × Option Nat × Option Nat) :=
  if dataPath.isNone || pipelinePath.isNone then
    match envf.dataPath with
    | none => .error (.valueError "No paths/parameters provided or found on .env file.")
    | some dp =>
      match envf.pipelinePath with
      | none => .error (.valueError "No paths/parameters provided or found on .env file.")
      | some pp =>
        if batchSize.isNone || maxWorkers.isNone then
          match envf.batchSize with
          | none => .error (.valueError "No paths/parameters provided or found on .env file.")
          | some bs =>
            match envf.maxWorkers with
            | none => .error (.valueError "No paths/parameters provided or found on .env file.")
            | some mw => .ok (some dp, some pp, some bs, some mw)
        else
          .ok (some dp, some pp, batchSize, maxWorkers)
  else
    .ok (dataPath, pipelinePath, batchSize, maxWorkers)


/-! ## Concrete inputs used by the claim theorems -/

/-- A data row with the three feature columns present and no missing
value. -/
def rowA : Row :=
  [("vibration_x", some 1), ("vibration_y", some 2), ("vibration_z", some 3)]

/-- The spec's concrete scenario input: 2,500 well-formed rows. -/
def rows2500 : List Row := List.replicate 2500 rowA

/-- The spec's unresolvable-step scenario:
`{"foo": {"FooBarTransformer": {}}}`. -/
def cfgFoo : PipelineConfig := [("foo", [("FooBarTransformer", [])])]

/-- A configuration file of the documented top-level shape: a `steps`
mapping with a sibling top-level `model` key,
`{"steps": {"scale": {"StandardScaler": {}}}, "model": "models/m.pkl"}`. -/
def c3doc : List String :=
  ["\x7b",
   "  \"steps\": \x7b\"scale\": \x7b\"StandardScaler\": \x7b\x7d\x7d\x7d,",
   "  \"model\": \"models/m.pkl\"",
   "\x7d"]

/-- The same configuration with the `model` key nested inside the `steps`
mapping (and a full-line comment), the shape the code actually consumes:
`{"steps": {"scale": {"StandardScaler": {}}, "model": "models/m.pkl"}}`. -/
def c3nested : List String :=
  ["// full-line comment",
   "\x7b \"steps\": \x7b\"scale\": \x7b\"StandardScaler\": \x7b\x7d\x7d, \"model\": \"models/m.pkl\"\x7d\x7d"]

/-- A configuration file with an inline trailing comment on a line that
does not start with `//`. -/
def c8doc : List String :=
  ["\x7b",
   "  \"steps\": \x7b\x7d, // inline trailing comment",
   "  \"model\": \"models/m.pkl\"",
   "\x7d"]

/-- A worker environment whose pipeline transform is the identity and
whose model yields one prediction per input row. -/
def envIdW : ScoreEnv where
  transform := fun batch => .ok batch
  hasPredict := true
  predict := fun batch => .ok (batch.map fun _ => 0)

/-- A worker environment whose pipeline transform raises on every batch. -/
def envFailW : ScoreEnv where
  transform := fun _ => .error (.valueError "Found array with 0 sample(s)")
  hasPredict := true
  predict := fun batch => .ok (batch.map fun _ => 0)

/-- A worker environment whose loaded model has no `predict` attribute. -/
def envNoPredW : ScoreEnv where
  transform := fun batch => .ok batch
  hasPredict := false
  predict := fun batch => .ok (batch.map fun _ => 0)

/-- A small input file: three well-formed rows. -/
def rowsW : List Row := [rowA, rowA, rowA]

/-- An `.env` file defining all four parameters. -/
def envFileFull : EnvFile where
  dataPath := some "env_data.parquet"
  pipelinePath := some "env_pipeline.jsonc"
  batchSize := some 500
  maxWorkers := some 8

/-- An `.env` file with `DATA_PATH` undefined. -/
def envFileNoData : EnvFile where
  dataPath := none
  pipelinePath := some "env_pipeline.jsonc"
  batchSize := some 500
  maxWorkers := some 8

/-! ## General lemmas about the embedded definitions -/

theorem chunksFuel_flatten {α : Type} (b : Nat) (hb : 0 < b) :
    ∀ (fuel : Nat) (l : List α), l.length < fuel → (chunksFuel fuel b l).flatten = l := by
  intro fuel
  induction fuel with
  | zero => intro l h; exact absurd h (Nat.not_lt_zero _)
  | succ fuel ih =>
    intro l h
    match l with
    | [] => rfl
    | x :: xs =>
      show ((x :: xs).take b :: chunksFuel fuel b ((x :: xs).drop b)).flatten = x :: xs
      rw [List.flatten_cons, ih ((x :: xs).drop b) ?_, List.take_append_drop]
      rw [List.length_drop]
      simp only [List.length_cons] at h ⊢
      omega

theorem chunks_flatten {α : Type} {b : Nat} (hb : 0 < b) (l : List α) :
    (chunks b l).flatten = l := by
  unfold chunks
  rw [if_neg (by omega)]
  exact chunksFuel_flatten b hb _ l (Nat.lt_succ_self _)

theorem chunks_ne_nil {α : Type} {b : Nat} (hb : 0 < b) {l : List α} (hl : l ≠ []) :
    chunks b l ≠ [] := by
  intro hc
  apply hl
  have hf := chunks_flatten hb l
  rw [hc] at hf
  exact hf.symm

theorem chunksFuel_length_le {α : Type} (b : Nat) (hb : 0 < b) :
    ∀ (fuel k : Nat) (l : List α), l.length < fuel → l.length ≤ b * k →
      (chunksFuel fuel b l).length ≤ k := by
  intro fuel
  induction fuel with
  | zero => intro k l h _; exact absurd h (Nat.not_lt_zero _)
  | succ fuel ih =>
    intro k l h hk
    match l with
    | [] => exact Nat.zero_le k
    | x :: xs =>
      match k with
      | 0 =>
        rw [Nat.mul_zero, Nat.le_zero] at hk
        simp at hk
      | k + 1 =>
        show ((x :: xs).take b :: chunksFuel fuel b ((x :: xs).drop b)).length ≤ k + 1
        rw [List.length_cons]
        rw [Nat.mul_succ] at hk
        refine Nat.succ_le_succ (ih k ((x :: xs).drop b) ?_ ?_)
        · rw [List.length_drop]
          simp only [List.length_cons] at h ⊢
          omega
        · rw [List.length_drop]
          omega

theorem chunks_length_le {α : Type} {b k : Nat} (hb : 0 < b) (l : List α)
    (hk : l.length ≤ b * k) : (chunks b l).length ≤ k := by
  unfold chunks
  rw [if_neg (by omega)]
  exact chunksFuel_length_le b hb _ k l (Nat.lt_succ_self _) hk

theorem batchGenLoop_small (b : Nat) (f : List String) :
    ∀ (cs acc : List (List Row)), acc.length + cs.length < b → (acc ≠ [] ∨ cs ≠ []) →
      batchGenLoop b f acc cs
        = [(acc ++ cs.map fun c => c.map (projRow f)).flatten] := by
  intro cs
  induction cs with
  | nil =>
    intro acc _ hne
    have hacc : acc ≠ [] := by
      rcases hne with h | h
      · exact h
      · exact absurd rfl h
    show (if acc.isEmpty then [] else [acc.flatten]) = _
    rw [if_neg (by simpa [List.isEmpty_iff] using hacc)]
    simp
  | cons c rest ih =>
    intro acc h hne
    show (if b ≤ (acc ++ [c.map (projRow f)]).length then _ else
        batchGenLoop b f (acc ++ [c.map (projRow f)]) rest) = _
    rw [if_neg (by
      simp only [List.length_append, List.length_cons, List.length_nil]
      simp only [List.length_cons] at h
      omega)]
    rw [ih (acc ++ [c.map (projRow f)]) (by
      simp only [List.length_append, List.length_cons, List.length_nil]
      simp only [List.length_cons] at h
      omega) (Or.inl (by simp))]
    simp

/-- C2 evaluation at the spec's concrete scenario: 2,500 well-formed rows
with `batch_size = 1000` yield a single 2,500-row batch from
`Scorer._batch_generator` — not three batches of 1000/1000/500, and the
one yielded batch exceeds `batch_size`. The generator counts accumulated
reader frames (`len(batch)` of a list of data frames), not rows. -/
theorem c2_eval :
    (batch_generator 1000 scoreFeatures rows2500).map List.length = [2500] := by
  have hb : (0 : Nat) < 1000 := by norm_num
  have hlen : rows2500.length = 2500 := by
    unfold rows2500
    rw [List.length_replicate]
  have hnil : rows2500 ≠ [] := by
    intro h
    have := congrArg List.length h
    rw [hlen] at this
    simp at this
  have hkeep : stream_data 1000 rows2500 = chunks 1000 rows2500 := by
    unfold stream_data
    have hpt : ∀ c ∈ chunks 1000 rows2500, (c.filter fun r => !(rowHasNull r)) = c := by
      intro c hc
      rw [List.filter_eq_self]
      intro r hr
      have hrmem : r ∈ rows2500 := by
        rw [← chunks_flatten hb rows2500]
        exact List.mem_flatten.mpr ⟨c, hc, hr⟩
      rw [List.eq_of_mem_replicate hrmem]
      rfl
    calc (chunks 1000 rows2500).map (fun c => c.filter fun r => !(rowHasNull r))
        = (chunks 1000 rows2500).map id := List.map_congr_left hpt
      _ = chunks 1000 rows2500 := List.map_id _
  have hcnt : (stream_data 1000 rows2500).length ≤ 3 := by
    rw [hkeep]
    exact chunks_length_le hb rows2500 (by rw [hlen]; norm_num)
  have hcne : stream_data 1000 rows2500 ≠ [] := by
    rw [hkeep]
    exact chunks_ne_nil hb hnil
  have hone : batch_generator 1000 scoreFeatures rows2500
      = [((stream_data 1000 rows2500).map fun c => c.map (projRow scoreFeatures)).flatten] := by
    unfold batch_generator
    have := batchGenLoop_small 1000 scoreFeatures (stream_data 1000 rows2500) []
      (by simp only [List.length_nil, Nat.zero_add]; omega) (Or.inr hcne)
    simpa using this
  rw [hone]
  simp only [List.map_cons, List.map_nil, List.length_flatten, List.map_map]
  have hcomp : (List.length ∘ fun c => c.map (projRow scoreFeatures))
      = (List.length : List Row → Nat) := by
    funext c
    simp
  rw [hcomp, hkeep, ← List.length_flatten, chunks_flatten hb, hlen]

/-- C1 evaluation at the spec's own scenario (a step whose class name,
`FooBarTransformer`, resolves in none of the default candidate modules):
the pipeline build aborts with a `RuntimeError`. The
`ValueError("Unsupported or missing step: ...")` raised by the module loop
is re-wrapped as `RuntimeError` by `_instantiate_step`'s blanket
`except Exception`, so the `except ValueError` skip handler of
`_instantiate_pipeline` never matches and the build does not skip the
step. -/
theorem c1_eval :
    build sklearnEnv cfgFoo
      = .error (.runtimeError ("Error while trying to instantiate pipeline: " ++
          "Error while trying to instantiate pipeline step: " ++
          "Unsupported or missing step: FooBarTransformer")) := by
  rfl

/-- C6 counterexample: building from a completely empty step mapping does
not succeed — `build` raises instead of yielding a degenerate pipeline. -/
theorem c6_counterexample : (build sklearnEnv []).isOk = false := by
  rfl

/-- C6 (amended): for every module environment, building from an empty
step mapping fails with a `RuntimeError`: the falsy-config guard
`if not self.pipeline_config` treats an empty mapping as an unloaded
configuration, and the resulting `ValueError` is wrapped by the outer
`except Exception` handlers. -/
theorem c6_thm (env : BuildEnv) :
    build env []
      = .error (.runtimeError ("Error while trying to instantiate pipeline: " ++
          "Pipeline configuration not loaded. Call load_pipeline() first.")) := by
  rfl

theorem tryModules_error_of_resolvable (env : BuildEnv) (c : String) (p : Params)
    (hbad : env.instOk c p = false) :
    ∀ mods : List String, (∃ m ∈ mods, env.moduleOk m = true ∧ env.exports m c = true) →
      ∃ msg, tryModules env c p mods = .error (.typeError msg) := by
  intro mods
  induction mods with
  | nil => rintro ⟨m, hm, _⟩; exact absurd hm (List.not_mem_nil m)
  | cons m rest ih =>
    rintro ⟨m₀, hm₀, hok, hex⟩
    show (∃ msg, (if env.moduleOk m then
        if env.exports m c then
          if env.instOk c p then Except.ok (some ⟨c, p⟩)
          else Except.error (.typeError s!"invalid constructor parameters for {c}")
        else tryModules env c p rest
      else tryModules env c p rest) = .error (.typeError msg))
    by_cases h1 : env.moduleOk m = true
    · by_cases h2 : env.exports m c = true
      · rw [if_pos h1, if_pos h2, if_neg (by rw [hbad]; exact Bool.false_ne_true)]
        exact ⟨_, rfl⟩
      · rw [if_pos h1, if_neg h2]
        rcases List.mem_cons.mp hm₀ with hEq | hmem
        · exact absurd (hEq ▸ hex) h2
        · exact ih ⟨m₀, hmem, hok, hex⟩
    · rw [if_neg h1]
      rcases List.mem_cons.mp hm₀ with hEq | hmem
      · exact absurd (hEq ▸ hok) h1
      · exact ih ⟨m₀, hmem, hok, hex⟩

theorem instantiateStep_error_of_bad_params (env : BuildEnv) (n c : String) (p : Params)
    (r : List (String × Params))
    (hres : ∃ m ∈ env.modules, env.moduleOk m = true ∧ env.exports m c = true)
    (hbad : env.instOk c p = false) :
    ∃ msg, instantiateStep env n ((c, p) :: r) = .error (.runtimeError msg) := by
  obtain ⟨msg, hmsg⟩ := tryModules_error_of_resolvable env c p hbad env.modules hres
  refine ⟨"Error while trying to instantiate pipeline step: " ++ msg, ?_⟩
  simp only [instantiateStep, instantiateStepBody, hmsg]
  rfl

theorem instantiatePipelineLoop_error (env : BuildEnv) :
    ∀ cfg : PipelineConfig, ∀ n ps, (n, ps) ∈ cfg →
      (∃ msg, instantiateStep env n ps = .error (.runtimeError msg)) →
      ∃ e, instantiatePipelineLoop env cfg = .error e := by
  intro cfg
  induction cfg with
  | nil => intro n ps hmem _; exact absurd hmem (List.not_mem_nil _)
  | cons hd rest ih =>
    intro n ps hmem hstep
    obtain ⟨n₀, ps₀⟩ := hd
    rcases List.mem_cons.mp hmem with hEq | hmem'
    · injection hEq with h1 h2
      subst h1
      subst h2
      obtain ⟨msg, hmsg⟩ := hstep
      refine ⟨.runtimeError msg, ?_⟩
      simp [instantiatePipelineLoop, hmsg, PyExc.isValueError]
    · obtain ⟨e, he⟩ := ih n ps hmem' hstep
      cases h₀ : instantiateStep env n₀ ps₀ with
      | ok step => exact ⟨e, by simp [instantiatePipelineLoop, h₀, he]⟩
      | error e₀ =>
        by_cases hv : e₀.isValueError = true
        · exact ⟨e, by simp [instantiatePipelineLoop, h₀, hv, he]⟩
        · exact ⟨e₀, by simp [instantiatePipelineLoop, h₀, hv]⟩

/-- C7: a step whose class name resolves in some candidate module but
whose parameter mapping the constructor rejects is not skipped: the build
of the whole pipeline fails with a `RuntimeError` (the `TypeError` escapes
the module loop, is wrapped by `_instantiate_step`, is not caught by the
`except ValueError` skip handler, and propagates through
`_instantiate_pipeline` and `build`). -/
theorem c7_thm (env : BuildEnv) (cfg : PipelineConfig) (n c : String) (p : Params)
    (r : List (String × Params))
    (hmem : (n, (c, p) :: r) ∈ cfg)
    (hres : ∃ m ∈ env.modules, env.moduleOk m = true ∧ env.exports m c = true)
    (hbad : env.instOk c p = false) :
    ∃ msg, build env cfg = .error (.runtimeError msg) := by
  obtain ⟨e, he⟩ := instantiatePipelineLoop_error env cfg n ((c, p) :: r) hmem
    (instantiateStep_error_of_bad_params env n c p r hres hbad)
  have hne : cfg.isEmpty = false := by
    cases cfg with
    | nil => exact absurd hmem (List.not_mem_nil _)
    | cons hd tl => rfl
  refine ⟨"Error while trying to instantiate pipeline: " ++ e.msg, ?_⟩
  simp [build, instantiatePipeline, instantiatePipelineBody, hne, he, PyExc.msg]

/-- C7 witness: with the default environment, a `StandardScaler` step with
a parameter set its constructor rejects makes the whole build fail. -/
theorem c7_witness :
    ∃ msg, build sklearnEnv [("scale", [("StandardScaler", [("bogus", "1")])])]
      = .error (.runtimeError msg) :=
  c7_thm sklearnEnv [("scale", [("StandardScaler", [("bogus", "1")])])]
    "scale" "StandardScaler" [("bogus", "1")] []
    (List.mem_singleton.mpr rfl)
    ⟨"sklearn.preprocessing", by simp [sklearnEnv, defaultModules], rfl, rfl⟩
    rfl

theorem batchGenLoop_sum (b : Nat) (f : List String) :
    ∀ (cs acc : List (List Row)),
      ((batchGenLoop b f acc cs).map List.length).sum
        = (acc.map List.length).sum + (cs.map List.length).sum := by
  intro cs
  induction cs with
  | nil =>
    intro acc
    show ((if acc.isEmpty then [] else [acc.flatten]).map List.length).sum = _
    by_cases h : acc.isEmpty = true
    · rw [if_pos h, List.isEmpty_iff.mp h]
      simp
    · rw [if_neg h]
      simp [List.length_flatten]
  | cons c rest ih =>
    intro acc
    show ((if b ≤ (acc ++ [c.map (projRow f)]).length then
        ((acc ++ [c.map (projRow f)]).take b).flatten ::
          batchGenLoop b f ((acc ++ [c.map (projRow f)]).drop b) rest
      else batchGenLoop b f (acc ++ [c.map (projRow f)]) rest).map List.length).sum = _
    by_cases h : b ≤ (acc ++ [c.map (projRow f)]).length
    · rw [if_pos h]
      simp only [List.map_cons, List.sum_cons, ih, List.length_flatten]
      rw [List.map_take, List.map_drop, ← Nat.add_assoc, List.sum_take_add_sum_drop]
      simp only [List.map_append, List.sum_append, List.map_cons, List.map_nil,
        List.length_map, List.sum_cons, List.sum_nil]
      omega
    · rw [if_neg h, ih]
      simp only [List.map_append, List.sum_append, List.map_cons, List.map_nil,
        List.length_map, List.sum_cons, List.sum_nil]
      omega

theorem batch_generator_sum (b : Nat) (f : List String) (rows : List Row) :
    ((batch_generator b f rows).map List.length).sum = survivingRowCount b rows := by
  unfold batch_generator survivingRowCount
  rw [batchGenLoop_sum]
  simp

theorem process_batch_length (env : ScoreEnv)
    (h1 : ∀ x t, env.transform x = .ok t → t.length = x.length)
    (h2 : ∀ x q, env.predict x = .ok q → q.length = x.length)
    (batch : List Row) (p : List Int) (hp : process_batch env batch = some p) :
    p.length = batch.length := by
  unfold process_batch processBatchBody at hp
  cases ht : env.transform batch with
  | error e => simp [ht] at hp
  | ok t =>
    simp only [ht] at hp
    cases hpb : env.hasPredict with
    | false => simp [hpb] at hp
    | true =>
      simp only [hpb, if_true] at hp
      cases hq : env.predict t with
      | error e => simp [hq] at hp
      | ok q =>
        simp only [hq] at hp
        have hpq : q = p := Option.some.inj hp
        rw [← hpq, h2 t q hq, h1 batch t ht]

theorem writtenFrom_sum_le (env : ScoreEnv)
    (h : ∀ batch p, process_batch env batch = some p → p.length = batch.length) :
    ∀ bs : List (List Row),
      ((writtenFrom env bs).map List.length).sum ≤ (bs.map List.length).sum := by
  intro bs
  induction bs with
  | nil => simp [writtenFrom]
  | cons b rest ih =>
    unfold writtenFrom at ih ⊢
    cases hb : process_batch env b with
    | none =>
      simp only [List.filterMap_cons, hb, List.map_cons, List.sum_cons]
      omega
    | some p =>
      simp only [List.filterMap_cons, hb, List.map_cons, List.sum_cons]
      have := h b p hb
      omega

theorem writtenFrom_sum_eq (env : ScoreEnv)
    (h : ∀ batch p, process_batch env batch = some p → p.length = batch.length) :
    ∀ bs : List (List Row), (∀ b ∈ bs, (process_batch env b).isSome = true) →
      ((writtenFrom env bs).map List.length).sum = (bs.map List.length).sum := by
  intro bs
  induction bs with
  | nil => intro _; simp [writtenFrom]
  | cons b rest ih =>
    intro hall
    have hbs : (process_batch env b).isSome = true := hall b (List.mem_cons_self ..)
    cases hb : process_batch env b with
    | none => rw [hb] at hbs; simp at hbs
    | some p =>
      unfold writtenFrom at ih ⊢
      simp only [List.filterMap_cons, hb, List.map_cons, List.sum_cons]
      rw [h b p hb, ih (fun x hx => hall x (List.mem_cons_of_mem _ hx))]

/-- C5: for every run whose pipeline transform preserves the row count of
a batch and whose model yields one prediction per input row, the total
number of prediction rows written to the output is at most the number of
input rows surviving the missing-value drop, with equality when no batch
fails. -/
theorem c5_thm (env : ScoreEnv) (batchSize : Nat) (features : List String) (rows : List Row)
    (h1 : ∀ x t, env.transform x = .ok t → t.length = x.length)
    (h2 : ∀ x q, env.predict x = .ok q → q.length = x.length) :
    outputRowCount env batchSize features rows ≤ survivingRowCount batchSize rows ∧
    ((∀ b ∈ batch_generator batchSize features rows, (process_batch env b).isSome = true) →
      outputRowCount env batchSize features rows = survivingRowCount batchSize rows) := by
  have hlen := process_batch_length env h1 h2
  constructor
  · unfold outputRowCount writtenPredictions
    calc ((writtenFrom env (batch_generator batchSize features rows)).map List.length).sum
        ≤ ((batch_generator batchSize features rows).map List.length).sum :=
          writtenFrom_sum_le env (fun batch p hp => hlen batch p hp) _
      _ = survivingRowCount batchSize rows := batch_generator_sum ..
  · intro hall
    unfold outputRowCount writtenPredictions
    rw [writtenFrom_sum_eq env (fun batch p hp => hlen batch p hp) _ hall,
      batch_generator_sum]

/-- C5 witness: with the identity transform and a one-prediction-per-row
model on a three-row input, the output row count equals the surviving
input row count. -/
theorem c5_witness :
    outputRowCount envIdW 2 scoreFeatures rowsW = survivingRowCount 2 rowsW :=
  And.right
    (c5_thm envIdW 2 scoreFeatures rowsW
      (fun x t h => by injection h with h; rw [h])
      (fun x q h => by injection h with h; rw [← h, List.length_map]))
    (fun b _ => rfl)

/-- C4: a batch on which the worker body (transform then predict) raises
is converted to an absent result inside the worker: `_process_batch`
returns `None`, the batch contributes no rows to the written output while
sibling batches are unaffected, and the scoring phase still completes
with an `ok` result. -/
theorem c4_thm (env : ScoreEnv) (batch : List Row) (e : PyExc)
    (h : processBatchBody env batch = .error e)
    (bs : List (List Row)) (batchSize : Nat) (features : List String) (rows : List Row) :
    process_batch env batch = none ∧
    writtenFrom env (batch :: bs) = writtenFrom env bs ∧
    (scoreScoringPhase env batchSize features rows).isOk = true := by
  have hnone : process_batch env batch = none := by
    unfold process_batch
    rw [h]
  refine ⟨hnone, ?_, rfl⟩
  unfold writtenFrom
  simp only [List.filterMap_cons, hnone]

/-- C4 witness: with a pipeline transform that raises on every batch, the
failing batch is dropped, its sibling is unaffected, and the scoring
phase completes. -/
theorem c4_witness :
    process_batch envFailW [rowA] = none ∧
    writtenFrom envFailW ([rowA] :: [[rowA]]) = writtenFrom envFailW [[rowA]] ∧
    (scoreScoringPhase envFailW 2 scoreFeatures rowsW).isOk = true :=
  c4_thm envFailW [rowA] (.valueError "Found array with 0 sample(s)") rfl
    [[rowA]] 2 scoreFeatures rowsW

/-- C10: when the loaded model has no predict capability, every batch is
a per-batch failure (worker returns `None`) and the scoring phase still
completes, returning an `ok` result with zero prediction rows. -/
theorem c10_thm (env : ScoreEnv) (h : env.hasPredict = false)
    (batchSize : Nat) (features : List String) (rows : List Row) (batch : List Row) :
    process_batch env batch = none ∧
    scoreScoringPhase env batchSize features rows = .ok [] := by
  have hnone : ∀ b : List Row, process_batch env b = none := by
    intro b
    unfold process_batch processBatchBody
    cases ht : env.transform b with
    | error e => simp [ht]
    | ok t => simp [ht, h]
  refine ⟨hnone batch, ?_⟩
  unfold scoreScoringPhase writtenPredictions writtenFrom
  rw [List.filterMap_eq_nil_iff.mpr (fun b _ => hnone b)]

/-- C10 witness: a loaded model object without a predict method yields an
empty written output on the three-row input while the run completes. -/
theorem c10_witness :
    process_batch envNoPredW [rowA] = none ∧
    scoreScoringPhase envNoPredW 2 scoreFeatures rowsW = .ok [] :=
  c10_thm envNoPredW rfl 2 scoreFeatures rowsW [rowA]

/-- C3 counterexample: for a configuration of the documented top-level
shape — a `steps` mapping with a sibling top-level `model` key — the
model path popped by `Scorer.score` is `None`; the documented
`"models/m.pkl"` value is not the path handed to the model loader. -/
theorem c3_counterexample :
    scorePrelude c3doc
      = .ok (none, Json.obj [("scale", Json.obj [("StandardScaler", Json.obj [])])]) ∧
    scorePrelude c3doc
      ≠ .ok (some (Json.str "models/m.pkl"),
          Json.obj [("scale", Json.obj [("StandardScaler", Json.obj [])])]) := by
  refine ⟨by rfl, ?_⟩
  intro h
  rw [show scorePrelude c3doc
      = .ok (none, Json.obj [("scale", Json.obj [("StandardScaler", Json.obj [])])]) from rfl] at h
  simp at h

/-- C3 (amended): the reserved `model` key is removed from the *steps*
mapping, not from the top level. `load_pipeline_file` returns only the
`steps` sub-mapping, so a top-level `model` entry is discarded without any
effect on the run (first conjunct: dropping it changes nothing), while a
`model` entry nested inside `steps` is popped and its value is the model
path, the remaining steps being exactly the others (second conjunct, at
the concrete nested-shape configuration). -/
theorem c3_thm (v : Json) (kvs : List (String × Json)) :
    scorePreludeOfSpec (Json.obj (("model", v) :: kvs))
        = scorePreludeOfSpec (Json.obj kvs) ∧
    scorePrelude c3nested
      = .ok (some (Json.str "models/m.pkl"),
          Json.obj [("scale", Json.obj [("StandardScaler", Json.obj [])])]) :=
  ⟨rfl, rfl⟩

/-- C8: full-line `//` comments are stripped line-wise before JSON
parsing — removing or inserting a line whose stripped text starts with
`//`, anywhere in the file, leaves loading unchanged (first conjunct) —
while an inline trailing comment on a line that does not start with `//`
reaches the JSON parser and makes loading fail with the wrapped decode
error (second conjunct, at the concrete document). -/
theorem c8_thm (l1 l2 : List String) (c : String)
    (h : pyStartsWith (pyStrip c) "//" = true) :
    load_pipeline_file (l1 ++ c :: l2) = load_pipeline_file (l1 ++ l2) ∧
    load_pipeline_file c8doc
      = .error (.runtimeError "Error building pipeline from file: Expecting value") := by
  refine ⟨?_, by rfl⟩
  have hstrip : stripCommentLines (l1 ++ c :: l2) = stripCommentLines (l1 ++ l2) := by
    simp only [stripCommentLines, List.filter_append, List.filter_cons, h, Bool.not_true,
      Bool.false_eq_true, if_false]
  unfold load_pipeline_file loadPipelineBody
  rw [hstrip]

/-- C8 witness: removing a concrete full-line comment from a concrete
document leaves loading unchanged, and the inline-comment document fails
to load. -/
theorem c8_witness :
    load_pipeline_file
        (["\x7b \"steps\": \x7b\x7d,"] ++ "  // a comment" :: ["\"model\": \"m.pkl\" \x7d"])
      = load_pipeline_file (["\x7b \"steps\": \x7b\x7d,"] ++ ["\"model\": \"m.pkl\" \x7d"]) ∧
    load_pipeline_file c8doc
      = .error (.runtimeError "Error building pipeline from file: Expecting value") :=
  c8_thm ["\x7b \"steps\": \x7b\x7d,"] ["\"model\": \"m.pkl\" \x7d"] "  // a comment" (by rfl)

/-- C9 counterexample: with every environment value defined and both paths
supplied explicitly, an unsupplied batch size does not fall back to the
environment value — it stays `None` (and likewise the worker count). -/
theorem c9_counterexample :
    resolveParams envFileFull (some "cli_data.parquet") (some "cli_pipeline.jsonc") none none
        = .ok (some "cli_data.parquet", some "cli_pipeline.jsonc", none, none) ∧
    resolveParams envFileFull (some "cli_data.parquet") (some "cli_pipeline.jsonc") none none
        ≠ .ok (some "cli_data.parquet", some "cli_pipeline.jsonc", some 500, some 8) := by
  refine ⟨by rfl, ?_⟩
  intro h
  rw [show resolveParams envFileFull (some "cli_data.parquet") (some "cli_pipeline.jsonc")
        none none
      = .ok (some "cli_data.parquet", some "cli_pipeline.jsonc", (none : Option Nat),
          (none : Option Nat)) from rfl] at h
  simp at h

/-- C9 (amended): parameter fallback is grouped, not per-parameter. When
both paths are supplied explicitly, all four arguments are used exactly as
given, with no environment fallback even for a missing batch size or
worker count (first conjunct). When some path is missing, the environment
is consulted: an undefined required value there is a fatal startup error
(second conjunct), and otherwise both paths are (re)assigned from the
environment — overwriting even an explicitly supplied path (third
conjunct). -/
theorem c9_thm (envf : EnvFile) (dp pp : Option String) (bs mw : Option Nat) :
    (dp.isSome = true → pp.isSome = true →
      resolveParams envf dp pp bs mw = .ok (dp, pp, bs, mw)) ∧
    ((dp.isNone = true ∨ pp.isNone = true) → envf.dataPath = none →
      resolveParams envf dp pp bs mw
        = .error (.valueError "No paths/parameters provided or found on .env file.")) ∧
    ((dp.isNone = true ∨ pp.isNone = true) → ∀ d p, envf.dataPath = some d →
      envf.pipelinePath = some p → bs.isSome = true → mw.isSome = true →
      resolveParams envf dp pp bs mw = .ok (some d, some p, bs, mw)) := by
  refine ⟨?_, ?_, ?_⟩
  · intro h1 h2
    match dp, pp with
    | some d, some p => rfl
    | none, _ => simp at h1
    | some _, none => simp at h2
  · intro hor hdp
    have hcond : (dp.isNone || pp.isNone) = true := by
      rcases hor with h | h <;> simp [h]
    simp only [resolveParams, hcond, if_true, hdp]
  · intro hor d p hdp hpp hbs hmw
    have hcond : (dp.isNone || pp.isNone) = true := by
      rcases hor with h | h <;> simp [h]
    have hbsmw : (bs.isNone || mw.isNone) = false := by
      match bs, mw with
      | some b, some m => rfl
      | none, _ => simp at hbs
      | some _, none => simp at hmw
    simp only [resolveParams, hcond, if_true, hdp, hpp, hbsmw, Bool.false_eq_true, if_false]

/-- C9 witness: the three behaviors at concrete inputs — both paths
explicit with no batch size and worker count fallback; a missing path
with `DATA_PATH` undefined is fatal; a missing pipeline path with a full
environment overwrites both paths from the environment. -/
theorem c9_witness :
    resolveParams envFileFull (some "a.parquet") (some "b.jsonc") (some 10) (some 2)
        = .ok (some "a.parquet", some "b.jsonc", some 10, some 2) ∧
    resolveParams envFileNoData none (some "cli.jsonc") (some 10) (some 2)
        = .error (.valueError "No paths/parameters provided or found on .env file.") ∧
    resolveParams envFileFull (some "cli_data.parquet") none (some 10) (some 2)
        = .ok (some "env_data.parquet", some "env_pipeline.jsonc", some 10, some 2) :=
  ⟨(c9_thm envFileFull (some "a.parquet") (some "b.jsonc") (some 10) (some 2)).1 rfl rfl,
   (c9_thm envFileNoData none (some "cli.jsonc") (some 10) (some 2)).2.1 (Or.inl rfl) rfl,
   (c9_thm envFileFull (some "cli_data.parquet") none (some 10) (some 2)).2.2 (Or.inr rfl)
     "env_data.parquet" "env_pipeline.jsonc" rfl rfl rfl rfl⟩
